import Mathlib

/-
Shallow embedding of two files of the airbyte-platform repository:

* `airbyte-server/.../publicapi/services/SourceService.kt` — the public-API
  source adapter `SourceServiceImpl`, which forwards requests to internal
  handlers (`SourceHandler`, `SchedulerHandler`) and maps results.
  Each adapter operation is embedded as a pure function from its inputs and
  the behaviour of the delegated handler call (success with a result, or a
  thrown exception) to a call trace recording the internal request objects
  passed to the handler, the contexts passed to the shared error handler,
  and the operation's outcome (a returned value or a raised error).

* `airbyte-webapp/.../ConnectionJobHistoryPage.tsx` — the job-history page.
  Its pure computations are embedded directly: the status-filter options
  list, the statuses / updatedAtStart / updatedAtEnd query parameters, and
  the job_page_size field of the LOAD_MORE_JOBS analytics event.
-/

namespace AirbytePlatform

/-! ## Kotlin adapter: data model (generated API model classes as used by SourceService.kt) -/

/-- Opaque identifier; `java.util.UUID` values are carried as strings. -/
abbrev UUID := String

/-- Opaque JSON configuration blob (`JsonNode` / `Object` in the generated models). -/
abbrev JsonNode := String

/-- Failure reason attached to a synchronous job, as read by `getSourceSchema`. -/
structure FailureReason where
  externalMessage : Option String
  internalMessage : Option String

/-- The `jobInfo` object of a discovery result: nullable `succeeded` flag and
nullable `failureReason`, as read by `getSourceSchema`. -/
structure SynchronousJobRead where
  succeeded : Option Bool
  failureReason : Option FailureReason

/-- Discovery result returned by the scheduler handler. Besides `jobInfo` it
carries further payload (the discovered catalog) that the adapter never
inspects; that payload is kept opaque. -/
structure SourceDiscoverSchemaRead where
  jobInfo : Option SynchronousJobRead
  catalog : Option JsonNode

/-- External create request (public API model). -/
structure SourceCreateRequest where
  name : Option String
  workspaceId : Option UUID
  configuration : Option JsonNode
  secretId : Option String

/-- External full-update request (public API model). -/
structure SourcePutRequest where
  name : Option String
  configuration : Option JsonNode

/-- External patch request (public API model). -/
structure SourcePatchRequest where
  name : Option String
  configuration : Option JsonNode
  secretId : Option String

/-- Internal create request built by `createSource`. -/
structure SourceCreate where
  name : Option String
  sourceDefinitionId : Option UUID
  workspaceId : Option UUID
  connectionConfiguration : Option JsonNode
  secretId : Option String

/-- Internal full-update request built by `updateSource`. -/
structure SourceUpdate where
  sourceId : UUID
  connectionConfiguration : Option JsonNode
  name : Option String

/-- Internal patch request built by `partialUpdateSource`. -/
structure PartialSourceUpdate where
  sourceId : UUID
  connectionConfiguration : Option JsonNode
  name : Option String
  secretId : Option String

/-- Internal by-id request built by `deleteSource` and `getSource`. -/
structure SourceIdRequestBody where
  sourceId : UUID

/-- Internal discovery request built by `getSourceSchema`. -/
structure SourceDiscoverSchemaRequestBody where
  sourceId : UUID
  disableCache : Bool

/-- Internal pagination object built by `listSourcesForWorkspaces`. -/
structure Pagination where
  pageSize : Int
  rowOffset : Int

/-- Internal list request built by `listSourcesForWorkspaces`. -/
structure ListResourcesForWorkspacesRequestBody where
  includeDeleted : Bool
  pagination : Pagination
  workspaceIds : List UUID

/-- Internal handler result for a single source. Its own fields are never
inspected by the adapter, so it is carried opaquely. -/
structure SourceRead where
  payload : String

/-- Internal handler result for the list operation; carried opaquely. -/
structure SourceReadList where
  payload : String

/-- Public response for a single source. Modelled from the spec:
`SourceReadMapper.from` is not part of the supplied source; the spec
describes the adapter as mapping "the internal result object to an external
result object" by "straight field copying", so the response is modelled as
carrying the mapped internal result. -/
structure SourceResponse where
  payload : String

/-- Modelled from the spec: `SourceReadMapper.from` performs straight field
copying from the internal result to the public response shape. -/
def SourceReadMapper.fromRead (r : SourceRead) : SourceResponse :=
  { payload := r.payload }

/-- Public response for the list operation. Modelled from the spec:
`SourcesResponseMapper.from` is not part of the supplied source; it is
modelled as a record of the arguments the adapter hands to it (the internal
result plus the request parameters echoed back). -/
structure SourcesResponse where
  result : SourceReadList
  requestWorkspaceIds : List UUID
  includeDeleted : Bool
  limit : Int
  offset : Int
  publicApiHost : String

/-- Modelled from the spec: `SourcesResponseMapper.from` maps the internal
result object and the echoed request parameters to the external response. -/
def SourcesResponseMapper.fromList (result : SourceReadList) (workspaceIds : List UUID)
    (includeDeleted : Bool) (limit offset : Int) (publicApiHost : String) : SourcesResponse :=
  { result := result
    requestWorkspaceIds := workspaceIds
    includeDeleted := includeDeleted
    limit := limit
    offset := offset
    publicApiHost := publicApiHost }

/-- External OAuth initiation request; never inspected by the adapter. -/
structure InitiateOauthRequest where
  payload : String

/-- A built HTTP response (`javax.ws.rs.core.Response`), reduced to its status code. -/
structure HttpResponse where
  status : Nat

/-! ## Kotlin adapter: errors and call traces -/

/-- The errors an adapter operation can raise. -/
inductive Thrown where
  /-- A Kotlin null-pointer exception from a failed `!!` unwrap. -/
  | nullPointer
  /-- `UnexpectedProblem(status, message)` thrown by `getSourceSchema`. -/
  | problem (status : Nat) (message : String)
  /-- The public-API-shaped error raised by the shared error handler. -/
  | raisedByErrorHandler (context : String)

/-- Whether a thrown error is the bad-request-style `UnexpectedProblem`
(HTTP status 400). -/
def Thrown.isBadRequestProblem : Thrown → Bool
  | Thrown.problem 400 _ => true
  | _ => false

/-- Trace of one adapter call: the internal request objects passed to the
delegated handler (in order), the context strings passed to
`ConfigClientErrorHandler.handleError` (in order), and the outcome. -/
structure CallTrace (ι ρ : Type) where
  handlerRequests : List ι
  errorHandlerContexts : List String
  outcome : Except Thrown ρ

/-- Whether an outcome is a normally returned value. -/
def outcomeIsOk {ρ : Type} : Except Thrown ρ → Bool
  | Except.ok _ => true
  | Except.error _ => false

/-- Modelled from the spec: `ConfigClientErrorHandler.handleError` is not part
of the supplied source; the spec describes it as "a shared error-translator
that presumably raises a public-API-shaped error", so it is modelled as
always raising an error carrying its context argument. -/
def ConfigClientErrorHandler.handleError (context : String) : Thrown :=
  Thrown.raisedByErrorHandler context

/-! ## Kotlin adapter: the operations of SourceServiceImpl

Each operation takes the behaviour of its single delegated handler call as a
parameter of type `Except Unit ρ` (either the handler's non-null result or a
thrown exception) and produces a `CallTrace`. -/

/-- The internal `SourceCreate` built by `createSource` (field-by-field copy). -/
def buildSourceCreate (req : SourceCreateRequest) (sourceDefinitionId : UUID) : SourceCreate :=
  { name := req.name
    sourceDefinitionId := some sourceDefinitionId
    workspaceId := req.workspaceId
    connectionConfiguration := req.configuration
    secretId := req.secretId }

/-- `SourceServiceImpl.createSource`: build the internal request, call the
handler once, translate a failure via the shared error handler, map a success
through `SourceReadMapper`. -/
def createSource (req : SourceCreateRequest) (sourceDefinitionId : UUID)
    (handlerResult : Except Unit SourceRead) : CallTrace SourceCreate SourceResponse :=
  { handlerRequests := [buildSourceCreate req sourceDefinitionId]
    errorHandlerContexts :=
      match handlerResult with
      | Except.error _ => [sourceDefinitionId]
      | Except.ok _ => []
    outcome :=
      match handlerResult with
      | Except.error _ => Except.error (ConfigClientErrorHandler.handleError sourceDefinitionId)
      | Except.ok r => Except.ok (SourceReadMapper.fromRead r) }

/-- The internal `SourceUpdate` built by `updateSource` (field-by-field copy). -/
def buildSourceUpdate (sourceId : UUID) (put : SourcePutRequest) : SourceUpdate :=
  { sourceId := sourceId
    connectionConfiguration := put.configuration
    name := put.name }

/-- `SourceServiceImpl.updateSource`. -/
def updateSource (sourceId : UUID) (put : SourcePutRequest)
    (handlerResult : Except Unit SourceRead) : CallTrace SourceUpdate SourceResponse :=
  { handlerRequests := [buildSourceUpdate sourceId put]
    errorHandlerContexts :=
      match handlerResult with
      | Except.error _ => [sourceId]
      | Except.ok _ => []
    outcome :=
      match handlerResult with
      | Except.error _ => Except.error (ConfigClientErrorHandler.handleError sourceId)
      | Except.ok r => Except.ok (SourceReadMapper.fromRead r) }

/-- The internal `PartialSourceUpdate` built by `partialUpdateSource`
(field-by-field copy). -/
def buildPartialSourceUpdate (sourceId : UUID) (patch : SourcePatchRequest) : PartialSourceUpdate :=
  { sourceId := sourceId
    connectionConfiguration := patch.configuration
    name := patch.name
    secretId := patch.secretId }

/-- `SourceServiceImpl.partialUpdateSource`. -/
def partialUpdateSource (sourceId : UUID) (patch : SourcePatchRequest)
    (handlerResult : Except Unit SourceRead) : CallTrace PartialSourceUpdate SourceResponse :=
  { handlerRequests := [buildPartialSourceUpdate sourceId patch]
    errorHandlerContexts :=
      match handlerResult with
      | Except.error _ => [sourceId]
      | Except.ok _ => []
    outcome :=
      match handlerResult with
      | Except.error _ => Except.error (ConfigClientErrorHandler.handleError sourceId)
      | Except.ok r => Except.ok (SourceReadMapper.fromRead r) }

/-- `SourceServiceImpl.deleteSource`: the operation returns no response body. -/
def deleteSource (sourceId : UUID)
    (handlerResult : Except Unit Unit) : CallTrace SourceIdRequestBody Unit :=
  { handlerRequests := [{ sourceId := sourceId }]
    errorHandlerContexts :=
      match handlerResult with
      | Except.error _ => [sourceId]
      | Except.ok _ => []
    outcome :=
      match handlerResult with
      | Except.error _ => Except.error (ConfigClientErrorHandler.handleError sourceId)
      | Except.ok _ => Except.ok () }

/-- `SourceServiceImpl.getSource`. -/
def getSource (sourceId : UUID)
    (handlerResult : Except Unit SourceRead) : CallTrace SourceIdRequestBody SourceResponse :=
  { handlerRequests := [{ sourceId := sourceId }]
    errorHandlerContexts :=
      match handlerResult with
      | Except.error _ => [sourceId]
      | Except.ok _ => []
    outcome :=
      match handlerResult with
      | Except.error _ => Except.error (ConfigClientErrorHandler.handleError sourceId)
      | Except.ok r => Except.ok (SourceReadMapper.fromRead r) }

/-- `SourceServiceImpl.getSourceSchema`: delegate to the scheduler handler;
on a thrown failure, translate via the shared error handler; on a returned
result, when `jobInfo?.succeeded == false` build an error message from the
failure reason (Kotlin `!!` on a null `failureReason` raises a null-pointer
exception) and throw `UnexpectedProblem(HttpStatus.BAD_REQUEST, message)`,
otherwise return the result unchanged. -/
def getSourceSchema (sourceId : UUID) (disableCache : Bool)
    (handlerResult : Except Unit SourceDiscoverSchemaRead) :
    CallTrace SourceDiscoverSchemaRequestBody SourceDiscoverSchemaRead :=
  { handlerRequests := [{ sourceId := sourceId, disableCache := disableCache }]
    errorHandlerContexts :=
      match handlerResult with
      | Except.error _ => [sourceId]
      | Except.ok _ => []
    outcome :=
      match handlerResult with
      | Except.error _ => Except.error (ConfigClientErrorHandler.handleError sourceId)
      | Except.ok read =>
        match read.jobInfo with
        | some ji =>
          if ji.succeeded = some false then
            match ji.failureReason with
            | none => Except.error Thrown.nullPointer
            | some fr =>
              Except.error (Thrown.problem 400
                (match fr.externalMessage with
                 | some m => "Something went wrong in the connector." ++ " logs:" ++ m
                 | none =>
                   match fr.internalMessage with
                   | some m => "Something went wrong in the connector." ++ " logs:" ++ m
                   | none => "Something went wrong in the connector."))
          else Except.ok read
        | none => Except.ok read }

/-- `SourceServiceImpl.listSourcesForWorkspaces`: `userWorkspaceIds` stands
for `userService.getAllWorkspaceIdsForUser(currentUserService.currentUser.userId)`,
substituted for an empty `workspaceIds` argument (Kotlin `ifEmpty`). The
error-handler context and the response mapper receive the original
`workspaceIds` argument. -/
def listSourcesForWorkspaces (workspaceIds : List UUID) (includeDeleted : Bool)
    (limit offset : Int) (userWorkspaceIds : List UUID) (publicApiHost : String)
    (handlerResult : Except Unit SourceReadList) :
    CallTrace ListResourcesForWorkspacesRequestBody SourcesResponse :=
  { handlerRequests :=
      [{ includeDeleted := includeDeleted
         pagination := { pageSize := limit, rowOffset := offset }
         workspaceIds := if workspaceIds.isEmpty then userWorkspaceIds else workspaceIds }]
    errorHandlerContexts :=
      match handlerResult with
      | Except.error _ => [toString workspaceIds]
      | Except.ok _ => []
    outcome :=
      match handlerResult with
      | Except.error _ => Except.error (ConfigClientErrorHandler.handleError (toString workspaceIds))
      | Except.ok r =>
        Except.ok
          (SourcesResponseMapper.fromList r workspaceIds includeDeleted limit offset publicApiHost) }

/-- `SourceServiceImpl.controllerInitiateOAuth`: a stub that delegates to no
handler and returns `Response.status(Response.Status.NOT_IMPLEMENTED)` (501). -/
def controllerInitiateOAuth (req : Option InitiateOauthRequest) : CallTrace Unit HttpResponse :=
  { handlerRequests := []
    errorHandlerContexts := []
    outcome := Except.ok { status := 501 } }

/-! ## Webapp: ConnectionJobHistoryPage.tsx -/

/-- Modelled from the spec: the job-status values of the filter besides
"all" ("compute `all | succeeded | failed | cancelled` filter"); the
generated `JobStatus` type itself is not part of the supplied source. -/
inductive JobStatus where
  | succeeded
  | failed
  | cancelled

/-- The page's `JobStatusFilter` type: `"all" | JobStatus`. -/
inductive JobStatusFilter where
  | all
  | status (s : JobStatus)

/-- One entry of the status filter list box, reduced to its message id and
its filter value (the icon is presentation only). -/
structure StatusFilterOption where
  labelId : String
  value : JobStatusFilter

/-- `statusFilterOptions`: the options offered by the status filter list box. -/
def statusFilterOptions : List StatusFilterOption :=
  [ { labelId := "jobHistory.statusFilter.allJobs", value := JobStatusFilter.all },
    { labelId := "jobHistory.statusFilter.successful"
      value := JobStatusFilter.status JobStatus.succeeded },
    { labelId := "jobHistory.statusFilter.failed"
      value := JobStatusFilter.status JobStatus.failed },
    { labelId := "jobHistory.statusFilter.cancelled"
      value := JobStatusFilter.status JobStatus.cancelled } ]

/-- The `statuses` parameter of the `useListJobs` query:
`filterValues.jobStatus === "all" ? undefined : [filterValues.jobStatus]`. -/
def statusesQueryParam : JobStatusFilter → Option (List JobStatus)
  | JobStatusFilter.all => none
  | JobStatusFilter.status s => some [s]

/-- Whether a string has the date-only shape `YYYY-MM-DD` (four digits,
dash, two digits, dash, two digits). -/
def isDateOnly (s : String) : Bool :=
  match s.toList with
  | [y1, y2, y3, y4, s1, m1, m2, s2, d1, d2] =>
      y1.isDigit && y2.isDigit && y3.isDigit && y4.isDigit && s1 == '-' &&
      m1.isDigit && m2.isDigit && s2 == '-' && d1.isDigit && d2.isDigit
  | _ => false

/-- Modelled from the spec: the dayjs pipeline
`dayjs(date, "YYYY-MM-DD").startOf("day").toISOString()` (dayjs is an
external library, not part of this repository); the spec describes it as
computing "ISO8601 day-boundary timestamps from date-only strings". For a
date-only string it renders the ISO8601 timestamp of the start of that day
(UTC); for any other string the pipeline throws, modelled as `none`. -/
def dayjsStartOfDayISO (date : String) : Option String :=
  if isDateOnly date then some (date ++ "T00:00:00.000Z") else none

/-- Modelled from the spec: `dayjs(date, "YYYY-MM-DD").endOf("day").toISOString()`,
the ISO8601 timestamp of the end of that day (UTC); for a non-date-only
string the pipeline throws, modelled as `none`. -/
def dayjsEndOfDayISO (date : String) : Option String :=
  if isDateOnly date then some (date ++ "T23:59:59.999Z") else none

/-- The page's `startOfDay` helper: the dayjs pipeline inside a try/catch
returning `undefined` on a throw. -/
def startOfDay (date : String) : Option String :=
  dayjsStartOfDayISO date

/-- The page's `endOfDay` helper: the dayjs pipeline inside a try/catch
returning `undefined` on a throw. -/
def endOfDay (date : String) : Option String :=
  dayjsEndOfDayISO date

/-- The `updatedAtStart` parameter of the `useListJobs` query:
`filterValues.startDate !== "" ? startOfDay(filterValues.startDate) : undefined`. -/
def updatedAtStartQueryParam (startDate : String) : Option String :=
  if startDate = "" then none else startOfDay startDate

/-- The `updatedAtEnd` parameter of the `useListJobs` query:
`filterValues.endDate !== "" ? endOfDay(filterValues.endDate) : undefined`. -/
def updatedAtEndQueryParam (endDate : String) : Option String :=
  if endDate = "" then none else endOfDay endDate

/-- One loaded page of the infinite job-listing query; its contents are
irrelevant to the embedded computation, only the page count matters. -/
structure JobsPageData where
  jobs : List String
  totalJobCount : Nat

/-- `JOB_PAGE_SIZE_INCREMENT = 15`. -/
def JOB_PAGE_SIZE_INCREMENT : Nat := 15

/-- The `job_page_size` field of the LOAD_MORE_JOBS analytics event:
`data?.pages.length ?? 1 * JOB_PAGE_SIZE_INCREMENT`. JavaScript parses this
as `(data?.pages.length) ?? (1 * JOB_PAGE_SIZE_INCREMENT)` because `??`
binds looser than `*`. -/
def jobPageSize (data : Option (List JobsPageData)) : Nat :=
  match data with
  | some pages => pages.length
  | none => 1 * JOB_PAGE_SIZE_INCREMENT

/-! ## Theorems -/

/-- C1 (counterexample): the claim asserts that for every discovery result
with `jobInfo.succeeded == false` — "including results whose failureReason is
null" — the adapter raises a bad-request-style error. On a result whose
`failureReason` is null, the adapter instead raises a null-pointer error
(the Kotlin `!!` unwrap of `jobInfo?.failureReason`), which is not the
bad-request `UnexpectedProblem`. -/
theorem C1_counterexample :
    (getSourceSchema "source-1" false
        (Except.ok { jobInfo := some { succeeded := some false, failureReason := none },
                     catalog := none })).outcome
      = Except.error Thrown.nullPointer
    ∧ Thrown.isBadRequestProblem Thrown.nullPointer = false :=
  ⟨rfl, rfl⟩

/-- C1 (amended): for every discovery result with `jobInfo.succeeded` equal
to `false` and a non-null `failureReason`, `getSourceSchema` raises the
bad-request (status 400) `UnexpectedProblem` whose message appends the
failure reason's `externalMessage` when that is non-null, otherwise its
`internalMessage` when that is non-null, and otherwise is only the generic
message; when `failureReason` is null it raises a null-pointer error
instead. -/
theorem C1_discovery_failure_message (sourceId : UUID) (disableCache : Bool)
    (catalog : Option JsonNode) (fr : FailureReason) :
    ((getSourceSchema sourceId disableCache
        (Except.ok { jobInfo := some { succeeded := some false, failureReason := some fr },
                     catalog := catalog })).outcome
      = Except.error (Thrown.problem 400
          (match fr.externalMessage with
           | some m => "Something went wrong in the connector." ++ " logs:" ++ m
           | none =>
             match fr.internalMessage with
             | some m => "Something went wrong in the connector." ++ " logs:" ++ m
             | none => "Something went wrong in the connector.")))
    ∧ ((getSourceSchema sourceId disableCache
        (Except.ok { jobInfo := some { succeeded := some false, failureReason := none },
                     catalog := catalog })).outcome
      = Except.error Thrown.nullPointer) := by
  refine ⟨?_, rfl⟩
  cases fr with
  | mk ext int => cases ext <;> cases int <;> rfl

/-- C2: for every adapter operation whose delegated handler call throws, the
shared error handler is invoked exactly once (with the operation's context)
and the operation terminates exceptionally, producing no response object. -/
theorem C2_handler_failure_error_path (req : SourceCreateRequest)
    (sourceDefinitionId sourceId : UUID) (put : SourcePutRequest) (patch : SourcePatchRequest)
    (disableCache includeDeleted : Bool) (workspaceIds userWorkspaceIds : List UUID)
    (limit offset : Int) (host : String) :
    ((createSource req sourceDefinitionId (Except.error ())).errorHandlerContexts.length = 1
      ∧ outcomeIsOk (createSource req sourceDefinitionId (Except.error ())).outcome = false)
    ∧ ((updateSource sourceId put (Except.error ())).errorHandlerContexts.length = 1
      ∧ outcomeIsOk (updateSource sourceId put (Except.error ())).outcome = false)
    ∧ ((partialUpdateSource sourceId patch (Except.error ())).errorHandlerContexts.length = 1
      ∧ outcomeIsOk (partialUpdateSource sourceId patch (Except.error ())).outcome = false)
    ∧ ((deleteSource sourceId (Except.error ())).errorHandlerContexts.length = 1
      ∧ outcomeIsOk (deleteSource sourceId (Except.error ())).outcome = false)
    ∧ ((getSource sourceId (Except.error ())).errorHandlerContexts.length = 1
      ∧ outcomeIsOk (getSource sourceId (Except.error ())).outcome = false)
    ∧ ((getSourceSchema sourceId disableCache (Except.error ())).errorHandlerContexts.length = 1
      ∧ outcomeIsOk (getSourceSchema sourceId disableCache (Except.error ())).outcome = false)
    ∧ ((listSourcesForWorkspaces workspaceIds includeDeleted limit offset userWorkspaceIds host
          (Except.error ())).errorHandlerContexts.length = 1
      ∧ outcomeIsOk (listSourcesForWorkspaces workspaceIds includeDeleted limit offset
          userWorkspaceIds host (Except.error ())).outcome = false) :=
  ⟨⟨rfl, rfl⟩, ⟨rfl, rfl⟩, ⟨rfl, rfl⟩, ⟨rfl, rfl⟩, ⟨rfl, rfl⟩, ⟨rfl, rfl⟩, ⟨rfl, rfl⟩⟩

/-- C3: the sourceId argument and the fields of the external update requests
appear unchanged on the internal request objects passed to the handler:
`SourceUpdate` carries sourceId, the put request's configuration and name;
`PartialSourceUpdate` carries sourceId, the patch request's configuration,
name and secretId. -/
theorem C3_update_field_passthrough (sourceId : UUID) (put : SourcePutRequest)
    (patch : SourcePatchRequest) (h1 h2 : Except Unit SourceRead) :
    (updateSource sourceId put h1).handlerRequests
        = [{ sourceId := sourceId, connectionConfiguration := put.configuration,
             name := put.name }]
    ∧ (partialUpdateSource sourceId patch h2).handlerRequests
        = [{ sourceId := sourceId, connectionConfiguration := patch.configuration,
             name := patch.name, secretId := patch.secretId }] :=
  ⟨rfl, rfl⟩

/-- C4: for every adapter operation and every behaviour of the delegated
handler call (success or failure), the handler is invoked at most once: the
list of internal requests passed to it has length at most one, so the call
is never re-attempted after a failure. -/
theorem C4_handler_invoked_at_most_once (req : SourceCreateRequest)
    (sourceDefinitionId sourceId : UUID) (put : SourcePutRequest) (patch : SourcePatchRequest)
    (disableCache includeDeleted : Bool) (workspaceIds userWorkspaceIds : List UUID)
    (limit offset : Int) (host : String) (oauthReq : Option InitiateOauthRequest)
    (hc hu hp hg : Except Unit SourceRead) (hd : Except Unit Unit)
    (hs : Except Unit SourceDiscoverSchemaRead) (hl : Except Unit SourceReadList) :
    (createSource req sourceDefinitionId hc).handlerRequests.length ≤ 1
    ∧ (updateSource sourceId put hu).handlerRequests.length ≤ 1
    ∧ (partialUpdateSource sourceId patch hp).handlerRequests.length ≤ 1
    ∧ (deleteSource sourceId hd).handlerRequests.length ≤ 1
    ∧ (getSource sourceId hg).handlerRequests.length ≤ 1
    ∧ (getSourceSchema sourceId disableCache hs).handlerRequests.length ≤ 1
    ∧ (listSourcesForWorkspaces workspaceIds includeDeleted limit offset userWorkspaceIds host
        hl).handlerRequests.length ≤ 1
    ∧ (controllerInitiateOAuth oauthReq).handlerRequests.length ≤ 1 :=
  ⟨Nat.le_refl 1, Nat.le_refl 1, Nat.le_refl 1, Nat.le_refl 1, Nat.le_refl 1,
   Nat.le_refl 1, Nat.le_refl 1, Nat.zero_le 1⟩

/-- C5: for every input, including a null request, `controllerInitiateOAuth`
returns a response with HTTP status 501 and delegates to no handler (and
invokes no error handler). -/
theorem C5_oauth_not_implemented (req : Option InitiateOauthRequest) :
    (controllerInitiateOAuth req).outcome = Except.ok { status := 501 }
    ∧ (controllerInitiateOAuth req).handlerRequests = []
    ∧ (controllerInitiateOAuth req).errorHandlerContexts = [] :=
  ⟨rfl, rfl, rfl⟩

/-- C6: the status filter offers exactly the four values all, succeeded,
failed, cancelled (in that order); the statuses parameter of the job-listing
query is undefined for "all" and the one-element list of the chosen value
otherwise. -/
theorem C6_status_filter_options (s : JobStatus) :
    statusFilterOptions.map StatusFilterOption.value
        = [JobStatusFilter.all, JobStatusFilter.status JobStatus.succeeded,
           JobStatusFilter.status JobStatus.failed, JobStatusFilter.status JobStatus.cancelled]
    ∧ statusesQueryParam JobStatusFilter.all = none
    ∧ statusesQueryParam (JobStatusFilter.status s) = some [s] :=
  ⟨rfl, rfl, rfl⟩

/-- C7: for every non-empty date-only string (format YYYY-MM-DD), the
updatedAtStart parameter is the ISO8601 timestamp of the start of that day
and the updatedAtEnd parameter the ISO8601 timestamp of the end of that day;
for the empty string both parameters are undefined. -/
theorem C7_date_boundary_params (date : String) :
    (isDateOnly date = true →
      updatedAtStartQueryParam date = some (date ++ "T00:00:00.000Z")
      ∧ updatedAtEndQueryParam date = some (date ++ "T23:59:59.999Z"))
    ∧ updatedAtStartQueryParam "" = none
    ∧ updatedAtEndQueryParam "" = none := by
  refine ⟨?_, rfl, rfl⟩
  intro h
  have hne : ¬ date = "" := fun he => absurd (he ▸ h) (by decide)
  constructor
  · simp [updatedAtStartQueryParam, startOfDay, dayjsStartOfDayISO, hne, h]
  · simp [updatedAtEndQueryParam, endOfDay, dayjsEndOfDayISO, hne, h]

/-- C7 witness: the date-boundary property evaluated at the concrete date
string "2024-03-05". -/
theorem C7_date_boundary_params_witness :
    isDateOnly "2024-03-05" = true
    ∧ updatedAtStartQueryParam "2024-03-05" = some ("2024-03-05" ++ "T00:00:00.000Z")
    ∧ updatedAtEndQueryParam "2024-03-05" = some ("2024-03-05" ++ "T23:59:59.999Z") :=
  ⟨by decide, ((C7_date_boundary_params "2024-03-05").1 (by decide)).1,
    ((C7_date_boundary_params "2024-03-05").1 (by decide)).2⟩

/-- C8: when the workspaceIds argument is empty, the internal list request
carries the current user's workspace ids instead, while the error-handler
context and the response mapper both receive the original (empty)
workspaceIds argument. -/
theorem C8_empty_workspace_ids (includeDeleted : Bool) (limit offset : Int)
    (userWorkspaceIds : List UUID) (host : String) (r : SourceReadList) :
    (listSourcesForWorkspaces [] includeDeleted limit offset userWorkspaceIds host
        (Except.ok r)).handlerRequests
      = [{ includeDeleted := includeDeleted
           pagination := { pageSize := limit, rowOffset := offset }
           workspaceIds := userWorkspaceIds }]
    ∧ (listSourcesForWorkspaces [] includeDeleted limit offset userWorkspaceIds host
        (Except.error ())).errorHandlerContexts
      = [toString ([] : List UUID)]
    ∧ (listSourcesForWorkspaces [] includeDeleted limit offset userWorkspaceIds host
        (Except.ok r)).outcome
      = Except.ok { result := r
                    requestWorkspaceIds := []
                    includeDeleted := includeDeleted
                    limit := limit
                    offset := offset
                    publicApiHost := host } :=
  ⟨rfl, rfl, rfl⟩

/-- C9: when the discovery result's jobInfo is null, or its succeeded flag
is null or true, `getSourceSchema` raises no error and returns the result
object unchanged; when the succeeded flag is exactly false, the outcome is
not a normal return. -/
theorem C9_schema_passthrough (sourceId : UUID) (disableCache : Bool)
    (catalog : Option JsonNode) (fr : Option FailureReason) :
    ((getSourceSchema sourceId disableCache
        (Except.ok { jobInfo := none, catalog := catalog })).outcome
      = Except.ok { jobInfo := none, catalog := catalog })
    ∧ ((getSourceSchema sourceId disableCache
        (Except.ok { jobInfo := some { succeeded := none, failureReason := fr },
                     catalog := catalog })).outcome
      = Except.ok { jobInfo := some { succeeded := none, failureReason := fr },
                    catalog := catalog })
    ∧ ((getSourceSchema sourceId disableCache
        (Except.ok { jobInfo := some { succeeded := some true, failureReason := fr },
                     catalog := catalog })).outcome
      = Except.ok { jobInfo := some { succeeded := some true, failureReason := fr },
                    catalog := catalog })
    ∧ outcomeIsOk (getSourceSchema sourceId disableCache
        (Except.ok { jobInfo := some { succeeded := some false, failureReason := fr },
                     catalog := catalog })).outcome = false := by
  refine ⟨rfl, rfl, rfl, ?_⟩
  cases fr with
  | none => rfl
  | some fr => rfl

/-- C10 (counterexample): the claim asserts job_page_size "equals 15 (1 *
JOB_PAGE_SIZE_INCREMENT) only when no data is present"; but when data is
present and holds exactly 15 loaded pages, job_page_size also equals 15. -/
theorem C10_counterexample :
    jobPageSize (some (List.replicate 15 { jobs := [], totalJobCount := 0 }))
      = 1 * JOB_PAGE_SIZE_INCREMENT
    ∧ (some (List.replicate 15
        ({ jobs := [], totalJobCount := 0 } : JobsPageData))).isSome = true :=
  ⟨rfl, rfl⟩

/-- C10 (amended): job_page_size equals the number of loaded pages
(data.pages.length) whenever data is present, and equals 15
(1 * JOB_PAGE_SIZE_INCREMENT) when no data is present; when data is present
with a nonzero page count it differs from the page count multiplied by the
page-size increment. -/
theorem C10_job_page_size (pages : List JobsPageData) :
    jobPageSize (some pages) = pages.length
    ∧ jobPageSize none = 1 * JOB_PAGE_SIZE_INCREMENT
    ∧ (pages.length ≠ 0 →
        jobPageSize (some pages) ≠ pages.length * JOB_PAGE_SIZE_INCREMENT) := by
  refine ⟨rfl, rfl, ?_⟩
  intro h hEq
  simp only [jobPageSize, JOB_PAGE_SIZE_INCREMENT] at hEq
  omega

/-- C10 witness: the amended property evaluated with one loaded page. -/
theorem C10_job_page_size_witness :
    jobPageSize (some [{ jobs := [], totalJobCount := 0 }])
      = [({ jobs := [], totalJobCount := 0 } : JobsPageData)].length
    ∧ jobPageSize none = 1 * JOB_PAGE_SIZE_INCREMENT
    ∧ jobPageSize (some [{ jobs := [], totalJobCount := 0 }])
      ≠ [({ jobs := [], totalJobCount := 0 } : JobsPageData)].length * JOB_PAGE_SIZE_INCREMENT :=
  ⟨(C10_job_page_size [{ jobs := [], totalJobCount := 0 }]).1,
   (C10_job_page_size [{ jobs := [], totalJobCount := 0 }]).2.1,
   (C10_job_page_size [{ jobs := [], totalJobCount := 0 }]).2.2 (by decide)⟩

end AirbytePlatform
